import Mathlib

/-!
Verification of the Founder-AI service layer (geminiService): a shallow
embedding of the six entry points that wrap the generative-AI endpoint,
together with theorems about their error handling, request construction
and response parsing.

External effects are made explicit parameters:
the environment API key is an explicit argument (the source reads it
through getApiKey at call time), the outcome of a fileToBase64 call is
carried on the file value, and the outcome of one generateContent call
(rejection, missing text, malformed text, or parsed JSON text) is an
explicit ServiceOutcome argument.  Each service function returns both the
request it issued (if it reached the network call) and its result, so that
the issue or non-issue of a network request is provable.
-/

namespace FounderAI

/-- JSON values, as produced by JSON.parse on a response text. -/
inductive Json where
  | null : Json
  | bool (b : Bool) : Json
  | num (n : Int) : Json
  | str (s : String) : Json
  | arr (elems : List Json) : Json
  | obj (fields : List (String × Json)) : Json

/-- Property read on a JS value: own property of an object, or undefined
(modelled as none) on every other value.  Reading a property of null
throws in JS; that case is handled separately at the use site. -/
def jsField : Json → String → Option Json
  | Json.obj fields, key => fields.lookup key
  | _, _ => none

/-- JS truthiness of a possibly-undefined value (none is undefined). -/
def jsTruthy : Option Json → Bool
  | none => false
  | some Json.null => false
  | some (Json.bool b) => b
  | some (Json.num n) => n != 0
  | some (Json.str s) => s != ""
  | some (Json.arr _) => true
  | some (Json.obj _) => true

mutual

/-- String coercion of a JS value, as a template literal performs it. -/
def jsDisplay : Json → String
  | Json.null => "null"
  | Json.bool b => if b then "true" else "false"
  | Json.num n => toString n
  | Json.str s => s
  | Json.arr elems => jsDisplayList elems
  | Json.obj _ => "[object Object]"

/-- Array.prototype.toString: elements joined with a comma, null shown empty. -/
def jsDisplayList : List Json → String
  | [] => ""
  | [j] => jsDisplayElem j
  | j :: rest => jsDisplayElem j ++ "," ++ jsDisplayList rest

/-- One element inside a joined array: null becomes the empty string. -/
def jsDisplayElem : Json → String
  | Json.null => ""
  | j => jsDisplay j

end

/-- Property assignment on a JS value: updates the named own property of an
object; on any other value the assignment does not produce an object
property (the use site only assigns to values whose property was truthy,
hence to objects). -/
def setField (j : Json) (key : String) (v : Json) : Json :=
  match j with
  | Json.obj fields =>
      Json.obj (fields.map (fun kw =>
        match kw with
        | (k2, w2) => if k2 = key then (k2, v) else (k2, w2)))
  | other => other

/-- The metrics sub-record of an analysis result. -/
structure Metrics where
  marketSize : String
  scalability : String
  innovation : String
deriving DecidableEq, Repr

/-- AnalysisResult: the typed view of an analysis response. -/
structure AnalysisResult where
  score : Int
  companyName : String
  summary : String
  pros : List String
  cons : List String
  metrics : Metrics
deriving DecidableEq, Repr

/-- A chat message handed to checkNegotiationProgress (role and text). -/
structure ChatMessage where
  role : String
  text : String
deriving DecidableEq, Repr

/-- A browser File, carrying the outcome that the fileToBase64 promise
would produce for it: the base64 payload, or a rejection. -/
structure JsFile where
  type_ : String
  encodeResult : Except Unit String
deriving Repr

/-- Helper to convert File to Base64 (the FileReader outcome is carried
on the file value, since the reader is a browser effect). -/
def fileToBase64 (file : JsFile) : Except Unit String :=
  file.encodeResult

/-- The text carried by a resolved generateContent response. -/
inductive ResponseText where
  | absent : ResponseText
  | malformed : ResponseText
  | json (v : Json) : ResponseText

/-- Outcome of one generateContent call: the promise rejected, or it
resolved with the given response text. -/
inductive ServiceOutcome where
  | reject : ServiceOutcome
  | resolved (text : ResponseText) : ServiceOutcome

/-- One part of a multi-part request: plain text or inline base64 data. -/
inductive Part where
  | text (text : String) : Part
  | inlineData (mimeType : String) (data : String) : Part
deriving DecidableEq, Repr

/-- The Type enum of the SDK schema language. -/
inductive SchemaType where
  | OBJECT : SchemaType
  | NUMBER : SchemaType
  | STRING : SchemaType
  | ARRAY : SchemaType
deriving DecidableEq, Repr

/-- A declared response schema node (type, description, items,
properties, required), mirroring the SDK Schema object. -/
inductive Schema where
  | node (type_ : SchemaType) (description : Option String)
      (items : Option Schema) (properties : List (String × Schema))
      (required : List String) : Schema

/-- A request passed to generateContent: the client key, model id, the
content parts and the response configuration. -/
structure GenRequest where
  apiKey : String
  model : String
  parts : List Part
  responseMimeType : Option String
  responseSchema : Option Schema

/-- The observable behaviour of one service entry point: the request it
issued (none when the code returned before reaching generateContent)
and the value it returned or the error it threw. -/
structure ServiceCall (α : Type) where
  request : Option GenRequest
  result : α

/-- The errors analyzeStartupPitch can throw. -/
inductive AnalyzeError where
  | missingApiKey : AnalyzeError
  | pdfProcessing : AnalyzeError
  | videoProcessing : AnalyzeError
  | network : AnalyzeError
  | noResponseText : AnalyzeError
  | jsonParse : AnalyzeError
deriving DecidableEq, Repr

/-- Boolean success test on an Except value. -/
def exceptOk {ε α : Type} : Except ε α → Bool
  | Except.ok _ => true
  | Except.error _ => false

/-- The model id used by every call of the service layer. -/
def modelId : String := "gemini-3-flash-preview"

/-- The fixed base instruction pushed first into the analysis request. -/
def analysisBasePrompt : String :=
  "You are a strict Venture Capital analyst. Analyze the provided startup materials.\n" ++
  "    These materials may include a video pitch, a PDF report, and/or a text summary.\n" ++
  "    \n" ++
  "    Evaluate the business model, market opportunity, and team presentation based on ALL provided content.\n" ++
  "    Return a JSON response with a score (0-100). \n" ++
  "    If the startup is exceptional, give it > 90. If it has flaws, score appropriately."

/-- The declared output schema of the analysis request. -/
def analysisSchema : Schema :=
  Schema.node SchemaType.OBJECT none none
    [ ("score", Schema.node SchemaType.NUMBER
        (some "A score from 0 to 100 based on investment potential.") none [] []),
      ("companyName", Schema.node SchemaType.STRING
        (some "Inferred name of the startup.") none [] []),
      ("summary", Schema.node SchemaType.STRING
        (some "Brief executive summary of the pitch.") none [] []),
      ("pros", Schema.node SchemaType.ARRAY
        (some "List of key strengths.")
        (some (Schema.node SchemaType.STRING none none [] [])) [] []),
      ("cons", Schema.node SchemaType.ARRAY
        (some "List of potential risks or weaknesses.")
        (some (Schema.node SchemaType.STRING none none [] [])) [] []),
      ("metrics", Schema.node SchemaType.OBJECT none none
        [ ("marketSize", Schema.node SchemaType.STRING
            (some "Estimated market size assessment.") none [] []),
          ("scalability", Schema.node SchemaType.STRING
            (some "Assessment of scalability.") none [] []),
          ("innovation", Schema.node SchemaType.STRING
            (some "Assessment of innovation/moat.") none [] []) ] []) ]
    ["score", "companyName", "summary", "pros", "cons", "metrics"]

/-- The system instruction of the negotiation chat session. -/
def negotiationSystemInstruction : String :=
  "You are \"Ventura\", a highly intelligent AI Investment Negotiator representing a top-tier VC firm.\n" ++
  "      The startup you are talking to has passed the initial screening with a high score (>60%).\n" ++
  "      \n" ++
  "      Your Goal: Negotiate a term sheet.\n" ++
  "      \n" ++
  "      Topics to discuss specifically:\n" ++
  "      1. Valuation & Equity (How much for what %)\n" ++
  "      2. Use of Funds (Burn rate, runway)\n" ++
  "      3. EBITDA & Profitability timelines\n" ++
  "      4. Long-term Vision & Exit Strategy\n" ++
  "      \n" ++
  "      Tone: Professional, direct, shrewd, yet supportive of high-growth potential. Do not accept weak answers. Drill down into numbers.\n" ++
  "      \n" ++
  "      IMPORTANT NEGOTIATION RULES:\n" ++
  "      - If the founder dodges key questions 2+ times, call it out firmly\n" ++
  "      - If valuations/expectations are wildly unrealistic, push back with market data\n" ++
  "      - If the founder can\u0027t provide basic metrics (revenue, growth rate, CAC), express serious concern\n" ++
  "      - If you sense the conversation is going in circles, acknowledge it and request specific information\n" ++
  "      - Be willing to express skepticism when warranted - you represent a real VC firm\n" ++
  "      - Your time is valuable; don\u0027t let founders waste it with vague or evasive answers\n" ++
  "      \n" ++
  "      Start by congratulating them on the high score and asking for their funding ask."

/-- The due-diligence prompt, interpolating the analysis and the first
1000 characters of the pitch text. -/
def dueDiligencePrompt (pitchText : String) (analysis : AnalysisResult) : String :=
  "\n" ++
  "    You are a skeptical Due Diligence Investigator. \n" ++
  "    Review the following startup pitch summary and analysis.\n" ++
  "    Extract 3-5 specific, verifiable claims made by the founders (e.g. \"We have 50% month-over-month growth\", \"We are the only solution in the market\").\n" ++
  "    \n" ++
  "    For each claim, flag it as \"Unverified\" and ask a probing question to verify it.\n" ++
  "    \n" ++
  "    Startup: " ++ analysis.companyName ++ "\n" ++
  "    Summary: " ++ analysis.summary ++ "\n" ++
  "    Pitch Context: " ++ pitchText.take 1000 ++ "...\n" ++
  "\n" ++
  "    Return a JSON array of objects with this schema:\n" ++
  "    \x7b\n" ++
  "      \"id\": \"string (unique)\",\n" ++
  "      \"claim\": \"string (the exact claim)\",\n" ++
  "      \"category\": \"Market\" | \"Financial\" | \"Team\" | \"Product\",\n" ++
  "      \"status\": \"Unverified\",\n" ++
  "      \"aiQuestion\": \"string (your probing question)\"\n" ++
  "    \x7d\n" ++
  "  "

/-- The investment-committee prompt, interpolating the analysis. -/
def committeePrompt (analysis : AnalysisResult) : String :=
  "\n" ++
  "    You are simulating an Investment Committee meeting at a top VC firm.\n" ++
  "    There are 3 agents discussing the startup \"" ++ analysis.companyName ++ "\".\n" ++
  "    \n" ++
  "    1. \"Tech\" (The CTO): Obsessed with stack, scalability, and technical moat. Skeptical of \"AI wrappers\".\n" ++
  "    2. \"Risk\" (The CFO): Obsessed with burn rate, unit economics, and competition. Risk-averse.\n" ++
  "    3. \"Vision\" (The Partner): Obsessed with market size, story, and \"changing the world\". Optimistic.\n" ++
  "\n" ++
  "    Generate a short, 3-turn conversation (one comment from each) reacting to this analysis:\n" ++
  "    Score: " ++ toString analysis.score ++ "\n" ++
  "    Pros: " ++ String.intercalate ", " analysis.pros ++ "\n" ++
  "    Cons: " ++ String.intercalate ", " analysis.cons ++ "\n" ++
  "\n" ++
  "    Return a JSON array of message objects:\n" ++
  "    \x7b\n" ++
  "      \"id\": \"string\",\n" ++
  "      \"agentId\": \"tech\" | \"risk\" | \"vision\",\n" ++
  "      \"text\": \"string (keep it punchy and in-character)\"\n" ++
  "    \x7d\n" ++
  "  "

/-- The board-simulator prompt, interpolating the analysis. -/
def boardPrompt (analysis : AnalysisResult) : String :=
  "\n" ++
  "    You are a Future Scenario Simulator.\n" ++
  "    The startup \"" ++ analysis.companyName ++ "\" successfully raised funding 18 months ago.\n" ++
  "    Based on their initial weaknesses: " ++ String.intercalate ", " analysis.cons ++
    ", generate a critical \"Crisis Scenario\" that they are likely facing now.\n" ++
  "\n" ++
  "    Return a JSON object:\n" ++
  "    \x7b\n" ++
  "      \"id\": \"scenario_1\",\n" ++
  "      \"title\": \"string (Dramatic title)\",\n" ++
  "      \"description\": \"string (What happened? e.g. \u0027Competitor X launched a free version...\u0027)\",\n" ++
  "      \"timeJump\": \"18 Months Later\",\n" ++
  "      \"choices\": [\n" ++
  "        \x7b\n" ++
  "          \"id\": \"A\",\n" ++
  "          \"label\": \"string (Action A)\",\n" ++
  "          \"consequence\": \"string (Brief hint of result)\"\n" ++
  "        \x7d,\n" ++
  "        \x7b\n" ++
  "          \"id\": \"B\",\n" ++
  "          \"label\": \"string (Action B)\",\n" ++
  "          \"consequence\": \"string (Brief hint of result)\"\n" ++
  "        \x7d\n" ++
  "      ]\n" ++
  "    \x7d\n" ++
  "  "

/-- The last n elements of a list, as Array.prototype.slice with a
negative index returns them (the whole list when it is shorter than n). -/
def sliceLast {α : Type} (l : List α) (n : Nat) : List α :=
  l.drop (l.length - n)

/-- The joined transcript of the recent messages, each line prefixed by
the speaker inferred from the message role. -/
def conversationText (recentMessages : List ChatMessage) : String :=
  String.intercalate "\n\n"
    (recentMessages.map (fun msg =>
      (if msg.role = "user" then "Founder" else "VC") ++ ": " ++ msg.text))

/-- The negotiation-progress prompt, interpolating the analysis and the
transcript of the last 8 messages. -/
def progressPrompt (messages : List ChatMessage) (analysis : AnalysisResult) : String :=
  "\n" ++
  "    You are a Negotiation Progress Analyzer for a VC firm.\n" ++
  "    Analyze this negotiation conversation and determine if it should be cancelled.\n" ++
  "    \n" ++
  "    Startup: " ++ analysis.companyName ++ " (Score: " ++ toString analysis.score ++ "/100)\n" ++
  "    \n" ++
  "    Recent Conversation:\n" ++
  "    " ++ conversationText (sliceLast messages 8) ++ "\n" ++
  "    \n" ++
  "    Analyze for these RED FLAGS:\n" ++
  "    1. Founder is repeatedly dodging key questions (valuations, revenue, metrics)\n" ++
  "    2. Founder is being unrealistic or defensive about terms\n" ++
  "    3. Conversation is going in circles (same topics repeated 3+ times)\n" ++
  "    4. Founder shows lack of understanding of basic business metrics\n" ++
  "    5. Founder is giving vague, non-committal answers\n" ++
  "    6. Terms are so far apart that compromise seems unlikely\n" ++
  "    7. Founder\u0027s expectations are completely misaligned with reality\n" ++
  "    \n" ++
  "    Return JSON:\n" ++
  "    \x7b\n" ++
  "      \"shouldCancel\": boolean (true if 3+ red flags or conversation is clearly unproductive),\n" ++
  "      \"showWarning\": boolean (true if 2 red flags detected - warn but don\u0027t cancel yet),\n" ++
  "      \"reason\": \"string (if shouldCancel is true, provide a professional message explaining why the VC is ending negotiations. Be diplomatic but firm.)\"\n" ++
  "    \x7d\n" ++
  "    \n" ++
  "    Example cancellation reason: \"After careful consideration of our discussion, it appears our expectations around valuation and growth metrics are significantly misaligned. We believe it\u0027s best to pause negotiations at this time. We wish you success and encourage you to reconnect once you\u0027ve achieved the milestones we discussed.\"\n" ++
  "  "

/-- Push of the optional PDF part: encodes the report file when present,
replacing an encoding rejection by the thrown pdf-processing error. -/
def addPdf (parts : List Part) (reportFile : Option JsFile) :
    Except AnalyzeError (List Part) :=
  match reportFile with
  | none => Except.ok parts
  | some file =>
    match fileToBase64 file with
    | Except.ok base64Pdf => Except.ok (parts ++ [Part.inlineData "application/pdf" base64Pdf])
    | Except.error _ => Except.error AnalyzeError.pdfProcessing

/-- Push of the optional video part: encodes the video file when present,
replacing an encoding rejection by the thrown video-processing error.
The mime type of the part is the type of the file. -/
def addVideo (parts : List Part) (videoFile : Option JsFile) :
    Except AnalyzeError (List Part) :=
  match videoFile with
  | none => Except.ok parts
  | some file =>
    match fileToBase64 file with
    | Except.ok base64Video => Except.ok (parts ++ [Part.inlineData file.type_ base64Video])
    | Except.error _ => Except.error AnalyzeError.videoProcessing

/-- The sequence of pushes assembling the analysis request parts: the base
prompt, then the text context when reportText is truthy, then the PDF
part, then the video part. -/
def buildAnalysisParts (videoFile : Option JsFile) (reportText : String)
    (reportFile : Option JsFile) : Except AnalyzeError (List Part) :=
  let parts := [Part.text analysisBasePrompt]
  let parts := if reportText ≠ "" then
      parts ++ [Part.text ("ADDITIONAL CONTEXT / SUMMARY:\n" ++ reportText)]
    else parts
  match addPdf parts reportFile with
  | Except.error e => Except.error e
  | Except.ok parts => addVideo parts videoFile

/-- Analyzes the startup pitch video, PDF report, and optional text summary:
throws when the key is missing or a file fails to encode; otherwise issues
the request and returns the parsed response text, rethrowing a rejection,
a missing response text, or a JSON.parse failure. -/
def analyzeStartupPitch (apiKey : String) (videoFile : Option JsFile)
    (reportText : String) (reportFile : Option JsFile)
    (outcome : ServiceOutcome) : ServiceCall (Except AnalyzeError Json) :=
  if apiKey = "" then
    { request := none, result := Except.error AnalyzeError.missingApiKey }
  else
    match buildAnalysisParts videoFile reportText reportFile with
    | Except.error e => { request := none, result := Except.error e }
    | Except.ok parts =>
      let req : GenRequest :=
        { apiKey := apiKey, model := modelId, parts := parts,
          responseMimeType := some "application/json",
          responseSchema := some analysisSchema }
      match outcome with
      | ServiceOutcome.reject =>
        { request := some req, result := Except.error AnalyzeError.network }
      | ServiceOutcome.resolved ResponseText.absent =>
        { request := some req, result := Except.error AnalyzeError.noResponseText }
      | ServiceOutcome.resolved ResponseText.malformed =>
        { request := some req, result := Except.error AnalyzeError.jsonParse }
      | ServiceOutcome.resolved (ResponseText.json v) =>
        { request := some req, result := Except.ok v }

/-- The chat session value returned by createNegotiationSession. -/
structure ChatSession where
  apiKey : String
  model : String
  systemInstruction : String

set_option linter.unusedVariables false in
/-- Creates a chat session for negotiation: throws when the key is missing,
otherwise returns the configured chat (no network call is made at
creation; the initialContext argument is unused, as in the source). -/
def createNegotiationSession (apiKey : String) (initialContext : String) :
    Except AnalyzeError ChatSession :=
  if apiKey = "" then Except.error AnalyzeError.missingApiKey
  else Except.ok
    { apiKey := apiKey, model := modelId,
      systemInstruction := negotiationSystemInstruction }

/-- Due Diligence Agent: issues its request without any key check and
returns the parsed response, with the empty array as the default on a
missing text, a parse failure, or a rejection. -/
def performDueDiligence (apiKey : String) (pitchText : String)
    (analysis : AnalysisResult) (outcome : ServiceOutcome) : ServiceCall Json :=
  let req : GenRequest :=
    { apiKey := apiKey, model := modelId,
      parts := [Part.text (dueDiligencePrompt pitchText analysis)],
      responseMimeType := some "application/json", responseSchema := none }
  match outcome with
  | ServiceOutcome.reject => { request := some req, result := Json.arr [] }
  | ServiceOutcome.resolved ResponseText.absent => { request := some req, result := Json.arr [] }
  | ServiceOutcome.resolved ResponseText.malformed => { request := some req, result := Json.arr [] }
  | ServiceOutcome.resolved (ResponseText.json v) => { request := some req, result := v }

/-- Investment Committee Agents: issues its request without any key check
and returns the parsed response, with the empty array as the default. -/
def startCommitteeDebate (apiKey : String) (analysis : AnalysisResult)
    (outcome : ServiceOutcome) : ServiceCall Json :=
  let req : GenRequest :=
    { apiKey := apiKey, model := modelId,
      parts := [Part.text (committeePrompt analysis)],
      responseMimeType := some "application/json", responseSchema := none }
  match outcome with
  | ServiceOutcome.reject => { request := some req, result := Json.arr [] }
  | ServiceOutcome.resolved ResponseText.absent => { request := some req, result := Json.arr [] }
  | ServiceOutcome.resolved ResponseText.malformed => { request := some req, result := Json.arr [] }
  | ServiceOutcome.resolved (ResponseText.json v) => { request := some req, result := v }

/-- The dummy scenario returned by startBoardSimulation on any failure. -/
def boardErrorScenario : Json :=
  Json.obj
    [ ("id", Json.str "error"),
      ("title", Json.str "Simulation Error"),
      ("description", Json.str "Could not generate scenario."),
      ("timeJump", Json.str "Now"),
      ("choices", Json.arr []) ]

/-- Board Simulator: issues its request without any key check and returns
the parsed response, with the dummy scenario as the default on a missing
text, a parse failure, or a rejection. -/
def startBoardSimulation (apiKey : String) (analysis : AnalysisResult)
    (outcome : ServiceOutcome) : ServiceCall Json :=
  let req : GenRequest :=
    { apiKey := apiKey, model := modelId,
      parts := [Part.text (boardPrompt analysis)],
      responseMimeType := some "application/json", responseSchema := none }
  match outcome with
  | ServiceOutcome.reject => { request := some req, result := boardErrorScenario }
  | ServiceOutcome.resolved ResponseText.absent => { request := some req, result := boardErrorScenario }
  | ServiceOutcome.resolved ResponseText.malformed => { request := some req, result := boardErrorScenario }
  | ServiceOutcome.resolved (ResponseText.json v) => { request := some req, result := v }

/-- The default progress record returned on every failure path. -/
def defaultProgress : Json :=
  Json.obj
    [ ("shouldCancel", Json.bool false),
      ("showWarning", Json.bool false),
      ("reason", Json.str "") ]

/-- The marker prefixed to a cancellation reason.  The source file stores
the prefix as the four characters U+00F0 U+0178 U+0161 U+00AB (a
double-encoded no-entry emoji) followed by a space. -/
def cancelMarker : String := "ðŸš« "

/-- The post-processing of a successfully parsed progress result: when
shouldCancel and reason are both truthy, the reason is replaced by the
marker followed by its display form; reading a property of a null result
throws (the error branch). -/
def formatCancelReason : Json → Except Unit Json
  | Json.null => Except.error ()
  | result =>
    if jsTruthy (jsField result "shouldCancel") && jsTruthy (jsField result "reason") then
      Except.ok (setField result "reason"
        (Json.str (cancelMarker ++ jsDisplay ((jsField result "reason").getD Json.null))))
    else
      Except.ok result

/-- Agentic Negotiation Progress Checker: returns the default without a
request when the key is missing or fewer than 6 messages exist; otherwise
issues the request over the last 8 messages and returns the parsed result
(with a formatted cancellation reason), or the default on any failure. -/
def checkNegotiationProgress (apiKey : String) (messages : List ChatMessage)
    (analysis : AnalysisResult) (outcome : ServiceOutcome) : ServiceCall Json :=
  if apiKey = "" then { request := none, result := defaultProgress }
  else if messages.length < 6 then { request := none, result := defaultProgress }
  else
    let req : GenRequest :=
      { apiKey := apiKey, model := modelId,
        parts := [Part.text (progressPrompt messages analysis)],
        responseMimeType := some "application/json", responseSchema := none }
    match outcome with
    | ServiceOutcome.reject => { request := some req, result := defaultProgress }
    | ServiceOutcome.resolved ResponseText.absent => { request := some req, result := defaultProgress }
    | ServiceOutcome.resolved ResponseText.malformed => { request := some req, result := defaultProgress }
    | ServiceOutcome.resolved (ResponseText.json v) =>
      match formatCancelReason v with
      | Except.ok r => { request := some req, result := r }
      | Except.error _ => { request := some req, result := defaultProgress }

/-- A JSON string payload, when the value is a string. -/
def asString : Json → Option String
  | Json.str s => some s
  | _ => none

/-- A JSON number payload, when the value is a number. -/
def asNum : Json → Option Int
  | Json.num n => some n
  | _ => none

/-- A list of strings, when the value is an array of strings. -/
def asStringList : Json → Option (List String)
  | Json.arr elems => elems.mapM asString
  | _ => none

/-- Spec-side reading of the metrics schema: a JSON value conforms when
its marketSize, scalability and innovation properties are strings. -/
def decodeMetrics (j : Json) : Option Metrics := do
  let marketSize ← (jsField j "marketSize").bind asString
  let scalability ← (jsField j "scalability").bind asString
  let innovation ← (jsField j "innovation").bind asString
  pure { marketSize := marketSize, scalability := scalability, innovation := innovation }

/-- Spec-side reading of the declared analysis schema: a JSON value
conforms when all six required properties are present with their declared
shapes; the decoded record is the typed view of the response. -/
def decodeAnalysis (j : Json) : Option AnalysisResult := do
  let score ← (jsField j "score").bind asNum
  let companyName ← (jsField j "companyName").bind asString
  let summary ← (jsField j "summary").bind asString
  let pros ← (jsField j "pros").bind asStringList
  let cons ← (jsField j "cons").bind asStringList
  let metrics ← (jsField j "metrics").bind decodeMetrics
  pure { score := score, companyName := companyName, summary := summary,
         pros := pros, cons := cons, metrics := metrics }

/-- A concrete analysis value used to instantiate theorems. -/
def sampleAnalysis : AnalysisResult :=
  { score := 85, companyName := "Acme", summary := "A startup.",
    pros := ["fast growth"], cons := ["small team"],
    metrics := { marketSize := "Large", scalability := "High", innovation := "Strong" } }

/-- A concrete response conforming to the declared analysis schema. -/
def sampleAnalysisJson : Json :=
  Json.obj
    [ ("score", Json.num 85),
      ("companyName", Json.str "Acme"),
      ("summary", Json.str "A startup."),
      ("pros", Json.arr [Json.str "fast growth"]),
      ("cons", Json.arr [Json.str "small team"]),
      ("metrics", Json.obj
        [ ("marketSize", Json.str "Large"),
          ("scalability", Json.str "High"),
          ("innovation", Json.str "Strong") ]) ]

/-- A schema-conforming response whose score lies outside 0..100. -/
def overScoreJson : Json :=
  Json.obj
    [ ("score", Json.num 150),
      ("companyName", Json.str "Acme"),
      ("summary", Json.str "A startup."),
      ("pros", Json.arr [Json.str "fast growth"]),
      ("cons", Json.arr [Json.str "small team"]),
      ("metrics", Json.obj
        [ ("marketSize", Json.str "Large"),
          ("scalability", Json.str "High"),
          ("innovation", Json.str "Strong") ]) ]

/-- A report file whose base64 encoding fails. -/
def failingPdf : JsFile :=
  { type_ := "application/pdf", encodeResult := Except.error () }

/-- A report file whose base64 encoding succeeds. -/
def okPdf : JsFile :=
  { type_ := "application/pdf", encodeResult := Except.ok "UERGNjQ=" }

/-- A video file whose base64 encoding succeeds. -/
def okVideo : JsFile :=
  { type_ := "video/mp4", encodeResult := Except.ok "VklENjQ=" }

/-- The parts contributed by the report file under a successful encode. -/
def pdfSeg (reportFile : Option JsFile) : List Part :=
  match reportFile with
  | none => []
  | some f =>
    match fileToBase64 f with
    | Except.ok d => [Part.inlineData "application/pdf" d]
    | Except.error _ => []

/-- The parts contributed by the video file under a successful encode. -/
def videoSeg (videoFile : Option JsFile) : List Part :=
  match videoFile with
  | none => []
  | some f =>
    match fileToBase64 f with
    | Except.ok d => [Part.inlineData f.type_ d]
    | Except.error _ => []

/-- Eight concrete negotiation messages. -/
def sampleEightMessages : List ChatMessage :=
  [ { role := "user", text := "We want 5M at 50M valuation." },
    { role := "model", text := "What is your current revenue?" },
    { role := "user", text := "We prefer to talk vision." },
    { role := "model", text := "I need concrete metrics." },
    { role := "user", text := "Our growth is strong." },
    { role := "model", text := "Strong meaning what, exactly?" },
    { role := "user", text := "Very strong." },
    { role := "model", text := "Let us revisit valuation." } ]

/-- Nine messages whose last eight equal the eight above. -/
def sampleNineMessages : List ChatMessage :=
  { role := "user", text := "Hello, thanks for the call." } :: sampleEightMessages

/-- Six concrete negotiation messages. -/
def sampleSixMessages : List ChatMessage :=
  [ { role := "user", text := "We want 5M." },
    { role := "model", text := "Revenue?" },
    { role := "user", text := "Vision first." },
    { role := "model", text := "Metrics first." },
    { role := "user", text := "Growth is strong." },
    { role := "model", text := "How strong?" } ]

/-- A parsed progress result that cancels with a reason. -/
def cancelFields : List (String × Json) :=
  [ ("shouldCancel", Json.bool true),
    ("showWarning", Json.bool false),
    ("reason", Json.str "Misaligned expectations.") ]

/-- A pitch text of 1000 equal characters and one tail. -/
def longPitchA : String := String.mk (List.replicate 1000 'a') ++ "TAIL-ONE"

/-- A second pitch text agreeing with the first on 1000 characters. -/
def longPitchB : String := String.mk (List.replicate 1000 'a') ++ "TAIL-TWO"

/-- A failing service interaction: the call rejected, the response text
was absent, or the response text was not parseable JSON. -/
def failedOutcome (outcome : ServiceOutcome) : Prop :=
  outcome = ServiceOutcome.reject ∨
  outcome = ServiceOutcome.resolved ResponseText.absent ∨
  outcome = ServiceOutcome.resolved ResponseText.malformed

/-- Every branch of performDueDiligence issues its request. -/
theorem performDueDiligence_request_isSome (apiKey pitchText : String)
    (analysis : AnalysisResult) (outcome : ServiceOutcome) :
    (performDueDiligence apiKey pitchText analysis outcome).request.isSome = true := by
  cases outcome with
  | reject => rfl
  | resolved t => cases t <;> rfl

/-- Every branch of startCommitteeDebate issues its request. -/
theorem startCommitteeDebate_request_isSome (apiKey : String)
    (analysis : AnalysisResult) (outcome : ServiceOutcome) :
    (startCommitteeDebate apiKey analysis outcome).request.isSome = true := by
  cases outcome with
  | reject => rfl
  | resolved t => cases t <;> rfl

/-- Every branch of startBoardSimulation issues its request. -/
theorem startBoardSimulation_request_isSome (apiKey : String)
    (analysis : AnalysisResult) (outcome : ServiceOutcome) :
    (startBoardSimulation apiKey analysis outcome).request.isSome = true := by
  cases outcome with
  | reject => rfl
  | resolved t => cases t <;> rfl

/-- C3: for every message list with fewer than 6 elements and every
analysis, checkNegotiationProgress returns the record with shouldCancel
false, showWarning false and an empty reason, without issuing any
service request. -/
theorem C3_short_list_default (apiKey : String) (messages : List ChatMessage)
    (analysis : AnalysisResult) (outcome : ServiceOutcome)
    (h : messages.length < 6) :
    (checkNegotiationProgress apiKey messages analysis outcome).request = none ∧
    (checkNegotiationProgress apiKey messages analysis outcome).result = defaultProgress := by
  unfold checkNegotiationProgress
  by_cases hk : apiKey = "" <;> simp [hk, h]

/-- Witness for C3 at a concrete empty conversation. -/
theorem C3_short_list_default_witness :
    ([] : List ChatMessage).length < 6 ∧
    ((checkNegotiationProgress "key" [] sampleAnalysis ServiceOutcome.reject).request = none ∧
     (checkNegotiationProgress "key" [] sampleAnalysis ServiceOutcome.reject).result = defaultProgress) :=
  ⟨by decide, C3_short_list_default "key" [] sampleAnalysis ServiceOutcome.reject (by decide)⟩

/-- C2: on a rejected call, an absent response text, or malformed JSON,
the simulation invokers never throw: performDueDiligence and
startCommitteeDebate return the empty list, startBoardSimulation returns
the error-tagged scenario (id error, title Simulation Error, timeJump
Now, empty choices), and checkNegotiationProgress returns the default
no-cancel record. -/
theorem C2_failure_defaults (apiKey pitchText : String)
    (messages : List ChatMessage) (analysis : AnalysisResult)
    (outcome : ServiceOutcome) (h : failedOutcome outcome) :
    (performDueDiligence apiKey pitchText analysis outcome).result = Json.arr [] ∧
    (startCommitteeDebate apiKey analysis outcome).result = Json.arr [] ∧
    (startBoardSimulation apiKey analysis outcome).result = boardErrorScenario ∧
    jsField boardErrorScenario "id" = some (Json.str "error") ∧
    jsField boardErrorScenario "title" = some (Json.str "Simulation Error") ∧
    jsField boardErrorScenario "timeJump" = some (Json.str "Now") ∧
    jsField boardErrorScenario "choices" = some (Json.arr []) ∧
    (checkNegotiationProgress apiKey messages analysis outcome).result = defaultProgress ∧
    jsField defaultProgress "shouldCancel" = some (Json.bool false) ∧
    jsField defaultProgress "showWarning" = some (Json.bool false) ∧
    jsField defaultProgress "reason" = some (Json.str "") := by
  refine ⟨?_, ?_, ?_, rfl, rfl, rfl, rfl, ?_, rfl, rfl, rfl⟩ <;>
  · rcases h with rfl | rfl | rfl <;>
    by_cases hk : apiKey = "" <;>
    by_cases hl : messages.length < 6 <;>
    simp [performDueDiligence, startCommitteeDebate, startBoardSimulation,
      checkNegotiationProgress, hk, hl]

/-- Witness for C2 at a concrete rejected call. -/
theorem C2_failure_defaults_witness :
    failedOutcome ServiceOutcome.reject ∧
    (performDueDiligence "key" "pitch" sampleAnalysis ServiceOutcome.reject).result = Json.arr [] :=
  ⟨Or.inl rfl,
   (C2_failure_defaults "key" "pitch" [] sampleAnalysis ServiceOutcome.reject (Or.inl rfl)).1⟩

/-- C1 counterexample: with the API key absent (empty), performDueDiligence
still issues a service request instead of stopping with a configuration
error, so the claimed property fails for this entry point. -/
theorem C1_counterexample :
    (performDueDiligence "" "pitch" sampleAnalysis ServiceOutcome.reject).request.isSome = true :=
  performDueDiligence_request_isSome "" "pitch" sampleAnalysis ServiceOutcome.reject

/-- C1 amended: with the API key absent, analyzeStartupPitch and
createNegotiationSession throw a configuration error before any network
request, and checkNegotiationProgress returns its default without issuing
a request; but performDueDiligence, startCommitteeDebate and
startBoardSimulation perform no key check and issue the request anyway
(its failure is swallowed into their defaults). -/
theorem C1_amended (videoFile reportFile : Option JsFile)
    (reportText pitchText initialContext : String)
    (messages : List ChatMessage) (analysis : AnalysisResult)
    (outcome : ServiceOutcome) :
    (analyzeStartupPitch "" videoFile reportText reportFile outcome).request = none ∧
    (analyzeStartupPitch "" videoFile reportText reportFile outcome).result
      = Except.error AnalyzeError.missingApiKey ∧
    createNegotiationSession "" initialContext = Except.error AnalyzeError.missingApiKey ∧
    (checkNegotiationProgress "" messages analysis outcome).request = none ∧
    (checkNegotiationProgress "" messages analysis outcome).result = defaultProgress ∧
    (performDueDiligence "" pitchText analysis outcome).request.isSome = true ∧
    (startCommitteeDebate "" analysis outcome).request.isSome = true ∧
    (startBoardSimulation "" analysis outcome).request.isSome = true := by
  refine ⟨rfl, rfl, rfl, rfl, rfl,
    performDueDiligence_request_isSome "" pitchText analysis outcome,
    startCommitteeDebate_request_isSome "" analysis outcome,
    startBoardSimulation_request_isSome "" analysis outcome⟩

/-- C4 counterexample: with a non-empty key and a response that is
perfectly parseable JSON, analyzeStartupPitch still throws when the PDF
report fails to encode, a third situation beyond the two the claim
allows. -/
theorem C4_counterexample :
    ("key" : String) ≠ "" ∧
    (analyzeStartupPitch "key" none "" (some failingPdf)
        (ServiceOutcome.resolved (ResponseText.json sampleAnalysisJson))).result
      = Except.error AnalyzeError.pdfProcessing :=
  ⟨by decide, rfl⟩

/-- C4 amended: analyzeStartupPitch throws exactly when the API key is
absent, a provided PDF or video file fails to encode, the network call
rejects (the caught error is rethrown), or the response text is absent or
not parseable JSON; in every such case the error propagates to the
caller. -/
theorem C4_amended (apiKey : String) (videoFile : Option JsFile)
    (reportText : String) (reportFile : Option JsFile)
    (outcome : ServiceOutcome) :
    exceptOk (analyzeStartupPitch apiKey videoFile reportText reportFile outcome).result = false ↔
      (apiKey = "" ∨
       (∃ f, reportFile = some f ∧ exceptOk (fileToBase64 f) = false) ∨
       (∃ f, videoFile = some f ∧ exceptOk (fileToBase64 f) = false) ∨
       outcome = ServiceOutcome.reject ∨
       outcome = ServiceOutcome.resolved ResponseText.absent ∨
       outcome = ServiceOutcome.resolved ResponseText.malformed) := by
  by_cases hk : apiKey = ""
  · simp [analyzeStartupPitch, hk, exceptOk]
  · rcases reportFile with _ | ⟨mt, er | db⟩ <;>
    rcases videoFile with _ | ⟨mtv, erv | dbv⟩ <;>
    rcases outcome with _ | (_ | _ | v) <;>
    simp [analyzeStartupPitch, buildAnalysisParts, addPdf, addVideo,
      fileToBase64, hk, exceptOk]

/-- When the report file encodes, addPdf appends exactly its segment. -/
theorem addPdf_ok (ps : List Part) (reportFile : Option JsFile)
    (h : ∀ f, reportFile = some f → exceptOk (fileToBase64 f) = true) :
    addPdf ps reportFile = Except.ok (ps ++ pdfSeg reportFile) := by
  rcases reportFile with _ | f
  · simp [addPdf, pdfSeg]
  · have hf := h f rfl
    rcases he : fileToBase64 f with e | d
    · rw [he] at hf; simp [exceptOk] at hf
    · simp [addPdf, pdfSeg, he]

/-- When the video file encodes, addVideo appends exactly its segment. -/
theorem addVideo_ok (ps : List Part) (videoFile : Option JsFile)
    (h : ∀ f, videoFile = some f → exceptOk (fileToBase64 f) = true) :
    addVideo ps videoFile = Except.ok (ps ++ videoSeg videoFile) := by
  rcases videoFile with _ | f
  · simp [addVideo, videoSeg]
  · have hf := h f rfl
    rcases he : fileToBase64 f with e | d
    · rw [he] at hf; simp [exceptOk] at hf
    · simp [addVideo, videoSeg, he]

/-- Closed form of the assembled parts when every provided file encodes:
the base prompt, then the context part when reportText is non-empty,
then the PDF segment, then the video segment. -/
theorem buildAnalysisParts_ok (videoFile : Option JsFile) (reportText : String)
    (reportFile : Option JsFile)
    (hrf : ∀ f, reportFile = some f → exceptOk (fileToBase64 f) = true)
    (hv : ∀ f, videoFile = some f → exceptOk (fileToBase64 f) = true) :
    buildAnalysisParts videoFile reportText reportFile = Except.ok
      ([Part.text analysisBasePrompt] ++
       (if reportText ≠ "" then
          [Part.text ("ADDITIONAL CONTEXT / SUMMARY:\n" ++ reportText)]
        else []) ++
       pdfSeg reportFile ++ videoSeg videoFile) := by
  simp only [buildAnalysisParts]
  rw [addPdf_ok _ _ hrf]
  dsimp only
  rw [addVideo_ok _ _ hv]
  by_cases hrt : reportText = "" <;> simp [hrt]

/-- On a parseable JSON response with the key present and every provided
file encoding, analyzeStartupPitch returns the parsed value verbatim. -/
theorem analyze_ok_of_json (apiKey : String) (videoFile : Option JsFile)
    (reportText : String) (reportFile : Option JsFile) (v : Json)
    (hk : apiKey ≠ "")
    (hrf : ∀ f, reportFile = some f → exceptOk (fileToBase64 f) = true)
    (hv : ∀ f, videoFile = some f → exceptOk (fileToBase64 f) = true) :
    (analyzeStartupPitch apiKey videoFile reportText reportFile
        (ServiceOutcome.resolved (ResponseText.json v))).result = Except.ok v := by
  unfold analyzeStartupPitch
  rw [buildAnalysisParts_ok videoFile reportText reportFile hrf hv]
  simp [hk]

/-- C5 counterexample: a schema-shaped response with score 150 is returned
verbatim by analyzeStartupPitch, so the returned score lies outside 0..100. -/
theorem C5_counterexample :
    (analyzeStartupPitch "key" none "" none
        (ServiceOutcome.resolved (ResponseText.json overScoreJson))).result
      = Except.ok overScoreJson ∧
    jsField overScoreJson "score" = some (Json.num 150) ∧
    ¬ ((150 : Int) ≤ 100) :=
  ⟨rfl, rfl, by decide⟩

/-- C5 amended: the score field of the returned result is whatever the
parsed response contains; the declared schema requests a 0..100 score but
analyzeStartupPitch performs no range check and returns the parsed
response verbatim. -/
theorem C5_amended (apiKey : String) (videoFile : Option JsFile)
    (reportText : String) (reportFile : Option JsFile) (v : Json)
    (hk : apiKey ≠ "")
    (hrf : ∀ f, reportFile = some f → exceptOk (fileToBase64 f) = true)
    (hv : ∀ f, videoFile = some f → exceptOk (fileToBase64 f) = true) :
    (analyzeStartupPitch apiKey videoFile reportText reportFile
        (ServiceOutcome.resolved (ResponseText.json v))).result = Except.ok v :=
  analyze_ok_of_json apiKey videoFile reportText reportFile v hk hrf hv

/-- Witness for C5 amended at a concrete over-range response. -/
theorem C5_amended_witness :
    ("key" : String) ≠ "" ∧
    (analyzeStartupPitch "key" none "" none
        (ServiceOutcome.resolved (ResponseText.json overScoreJson))).result
      = Except.ok overScoreJson :=
  ⟨by decide,
   C5_amended "key" none "" none overScoreJson (by decide)
     (fun f h => nomatch h) (fun f h => nomatch h)⟩

/-- C6: for every response whose text is well-formed JSON conforming to
the declared analysis schema, analyzeStartupPitch returns the parsed
record with every required field populated with the response value. -/
theorem C6_conforming_response (apiKey : String) (videoFile : Option JsFile)
    (reportText : String) (reportFile : Option JsFile) (v : Json) (r : AnalysisResult)
    (hk : apiKey ≠ "")
    (hrf : ∀ f, reportFile = some f → exceptOk (fileToBase64 f) = true)
    (hv : ∀ f, videoFile = some f → exceptOk (fileToBase64 f) = true)
    (hdec : decodeAnalysis v = some r) :
    (analyzeStartupPitch apiKey videoFile reportText reportFile
        (ServiceOutcome.resolved (ResponseText.json v))).result = Except.ok v ∧
    jsField v "score" = some (Json.num r.score) ∧
    jsField v "companyName" = some (Json.str r.companyName) ∧
    jsField v "summary" = some (Json.str r.summary) ∧
    (jsField v "pros").bind asStringList = some r.pros ∧
    (jsField v "cons").bind asStringList = some r.cons ∧
    (jsField v "metrics").bind decodeMetrics = some r.metrics := by
  refine ⟨analyze_ok_of_json apiKey videoFile reportText reportFile v hk hrf hv, ?_⟩
  simp only [decodeAnalysis, Option.bind_eq_bind', Option.bind_eq_some',
    Option.some.injEq] at hdec
  obtain ⟨score, ⟨s1, hs1, hs2⟩, companyName, ⟨c1, hc1, hc2⟩, summary, ⟨m1, hm1, hm2⟩,
    pros, ⟨p1, hp1, hp2⟩, cons, ⟨q1, hq1, hq2⟩, metrics, ⟨t1, ht1, ht2⟩, hrec⟩ := hdec
  rw [Option.pure_def, Option.some.injEq] at hrec
  subst hrec
  rcases s1 with _ | _ | n | _ | _ | _ <;> simp [asNum] at hs2
  rcases c1 with _ | _ | _ | cs | _ | _ <;> simp [asString] at hc2
  rcases m1 with _ | _ | _ | ms | _ | _ <;> simp [asString] at hm2
  subst hs2; subst hc2; subst hm2
  refine ⟨hs1, hc1, hm1, ?_, ?_, ?_⟩
  · rw [hp1]; simpa using hp2
  · rw [hq1]; simpa using hq2
  · rw [ht1]; simpa using ht2

/-- Witness for C6 at a concrete conforming response. -/
theorem C6_conforming_response_witness :
    ("key" : String) ≠ "" ∧
    decodeAnalysis sampleAnalysisJson = some sampleAnalysis ∧
    jsField sampleAnalysisJson "score" = some (Json.num sampleAnalysis.score) ∧
    (analyzeStartupPitch "key" none "" none
        (ServiceOutcome.resolved (ResponseText.json sampleAnalysisJson))).result
      = Except.ok sampleAnalysisJson :=
  ⟨by decide, rfl,
   (C6_conforming_response "key" none "" none sampleAnalysisJson sampleAnalysis
     (by decide) (fun f h => nomatch h) (fun f h => nomatch h) rfl).2.1,
   (C6_conforming_response "key" none "" none sampleAnalysisJson sampleAnalysis
     (by decide) (fun f h => nomatch h) (fun f h => nomatch h) rfl).1⟩

/-- C7: under a present key and encodable files, the assembled request
carries the fixed instruction prompt as its first part and declares the
JSON output schema; a text-context part is included iff reportText is
non-empty, a PDF inline part iff the report file is provided, and a
non-PDF (video-typed) inline part iff the video file is provided; the
number of parts is exactly one per provided input plus the prompt. -/
theorem C7_request_assembly (apiKey : String) (videoFile : Option JsFile)
    (reportText : String) (reportFile : Option JsFile) (outcome : ServiceOutcome)
    (hk : apiKey ≠ "")
    (hrf : ∀ f, reportFile = some f → exceptOk (fileToBase64 f) = true)
    (hv : ∀ f, videoFile = some f → exceptOk (fileToBase64 f) = true)
    (hmime : ∀ f, videoFile = some f → f.type_ ≠ "application/pdf") :
    ∃ req, (analyzeStartupPitch apiKey videoFile reportText reportFile outcome).request
        = some req ∧
      req.model = modelId ∧
      req.responseMimeType = some "application/json" ∧
      req.responseSchema = some analysisSchema ∧
      req.parts.head? = some (Part.text analysisBasePrompt) ∧
      ((Part.text ("ADDITIONAL CONTEXT / SUMMARY:\n" ++ reportText) ∈ req.parts)
        ↔ reportText ≠ "") ∧
      ((∃ d, Part.inlineData "application/pdf" d ∈ req.parts) ↔ reportFile.isSome) ∧
      ((∃ m d, m ≠ "application/pdf" ∧ Part.inlineData m d ∈ req.parts) ↔ videoFile.isSome) ∧
      req.parts.length = 1 + (if reportText ≠ "" then 1 else 0) +
        (if reportFile.isSome then 1 else 0) + (if videoFile.isSome then 1 else 0) := by
  have hne : ("ADDITIONAL CONTEXT / SUMMARY:\n" : String) ≠ analysisBasePrompt := by decide
  have hreq : (analyzeStartupPitch apiKey videoFile reportText reportFile outcome).request
      = some { apiKey := apiKey, model := modelId,
               parts := [Part.text analysisBasePrompt] ++
                 (if reportText ≠ "" then
                    [Part.text ("ADDITIONAL CONTEXT / SUMMARY:\n" ++ reportText)]
                  else []) ++
                 pdfSeg reportFile ++ videoSeg videoFile,
               responseMimeType := some "application/json",
               responseSchema := some analysisSchema } := by
    unfold analyzeStartupPitch
    rw [buildAnalysisParts_ok videoFile reportText reportFile hrf hv]
    rcases outcome with _ | (_ | _ | w) <;> simp [hk]
  have hL2 : ∀ f, reportFile = some f →
      ∃ d, pdfSeg reportFile = [Part.inlineData "application/pdf" d] := by
    intro f hf
    have hok := hrf f hf
    rcases he : fileToBase64 f with e | d
    · rw [he] at hok; simp [exceptOk] at hok
    · exact ⟨d, by simp [pdfSeg, hf, he]⟩
  have hL3 : ∀ f, videoFile = some f →
      ∃ d, videoSeg videoFile = [Part.inlineData f.type_ d] := by
    intro f hf
    have hok := hv f hf
    rcases he : fileToBase64 f with e | d
    · rw [he] at hok; simp [exceptOk] at hok
    · exact ⟨d, by simp [videoSeg, hf, he]⟩
  refine ⟨_, hreq, rfl, rfl, rfl, ?_, ?_, ?_, ?_⟩ <;>
  · rcases hf : reportFile with _ | f <;>
    rcases hg : videoFile with _ | g
    case none.none =>
      by_cases hrt : reportText = "" <;>
        simp [pdfSeg, videoSeg, hrt, hne]
    case none.some =>
      obtain ⟨dv, hdv⟩ := hL3 g hg
      rw [hg] at hdv
      have hgm := hmime g hg
      by_cases hrt : reportText = "" <;>
        simp [pdfSeg, hdv, hrt, hne, hgm, Ne.symm hgm]
    case some.none =>
      obtain ⟨dp, hdp⟩ := hL2 f hf
      rw [hf] at hdp
      by_cases hrt : reportText = "" <;>
        simp [videoSeg, hdp, hrt, hne]
    case some.some =>
      obtain ⟨dp, hdp⟩ := hL2 f hf
      obtain ⟨dv, hdv⟩ := hL3 g hg
      rw [hf] at hdp
      rw [hg] at hdv
      have hgm := hmime g hg
      by_cases hrt : reportText = "" <;>
        simp [hdp, hdv, hrt, hne, hgm, Ne.symm hgm] <;>
        exact ⟨g.type_, hgm, dv, Or.inr ⟨rfl, rfl⟩⟩


/-- Witness for C7 at a concrete fully-provided input. -/
theorem C7_request_assembly_witness :
    ("key" : String) ≠ "" ∧
    (∃ req, (analyzeStartupPitch "key" (some okVideo) "Great numbers" (some okPdf)
        ServiceOutcome.reject).request = some req ∧
      req.model = modelId ∧
      req.responseMimeType = some "application/json" ∧
      req.responseSchema = some analysisSchema ∧
      req.parts.head? = some (Part.text analysisBasePrompt) ∧
      ((Part.text ("ADDITIONAL CONTEXT / SUMMARY:\n" ++ "Great numbers") ∈ req.parts)
        ↔ ("Great numbers" : String) ≠ "") ∧
      ((∃ d, Part.inlineData "application/pdf" d ∈ req.parts) ↔ (some okPdf).isSome) ∧
      ((∃ m d, m ≠ "application/pdf" ∧ Part.inlineData m d ∈ req.parts)
        ↔ (some okVideo).isSome) ∧
      req.parts.length = 1 + (if ("Great numbers" : String) ≠ "" then 1 else 0) +
        (if (some okPdf).isSome then 1 else 0) + (if (some okVideo).isSome then 1 else 0)) :=
  ⟨by decide,
   C7_request_assembly "key" (some okVideo) "Great numbers" (some okPdf)
     ServiceOutcome.reject (by decide)
     (by intro f hf; cases hf; rfl)
     (by intro f hf; cases hf; rfl)
     (by intro f hf; cases hf; decide)⟩

/-- C8: for any two message lists of length at least 6 with identical
last 8 elements and the same analysis, checkNegotiationProgress builds
the identical prompt and issues the identical request: the whole call
depends on the list only through its last 8 messages. -/
theorem C8_last_eight_messages (apiKey : String) (analysis : AnalysisResult)
    (outcome : ServiceOutcome) (m1 m2 : List ChatMessage)
    (h1 : 6 ≤ m1.length) (h2 : 6 ≤ m2.length)
    (h : sliceLast m1 8 = sliceLast m2 8) :
    checkNegotiationProgress apiKey m1 analysis outcome =
      checkNegotiationProgress apiKey m2 analysis outcome := by
  have h1' : ¬ m1.length < 6 := Nat.not_lt.mpr h1
  have h2' : ¬ m2.length < 6 := Nat.not_lt.mpr h2
  unfold checkNegotiationProgress progressPrompt
  rw [h]
  simp [h1', h2']

/-- Witness for C8: an eight-message list and a nine-message list with
the same last eight messages produce the same call. -/
theorem C8_last_eight_messages_witness :
    6 ≤ sampleEightMessages.length ∧ 6 ≤ sampleNineMessages.length ∧
    sliceLast sampleEightMessages 8 = sliceLast sampleNineMessages 8 ∧
    checkNegotiationProgress "key" sampleEightMessages sampleAnalysis ServiceOutcome.reject =
      checkNegotiationProgress "key" sampleNineMessages sampleAnalysis ServiceOutcome.reject :=
  ⟨by decide, by decide, by decide,
   C8_last_eight_messages "key" sampleAnalysis ServiceOutcome.reject
     sampleEightMessages sampleNineMessages (by decide) (by decide) (by decide)⟩

/-- Updating a present key through setField yields the new value. -/
theorem jsField_setField_self (fields : List (String × Json)) (key : String) (v : Json)
    {w : Json} (h : jsField (Json.obj fields) key = some w) :
    jsField (setField (Json.obj fields) key v) key = some v := by
  induction fields with
  | nil => simp [jsField, List.lookup] at h
  | cons hd tl ih =>
    obtain ⟨k, x⟩ := hd
    by_cases hk : k = key
    · subst hk
      show List.lookup k ((if k = k then (k, v) else (k, x)) :: _) = some v
      rw [if_pos rfl]
      simp [List.lookup]
    · have hbk : (key == k) = false := beq_eq_false_iff_ne.mpr (Ne.symm hk)
      have h2 : List.lookup key tl = some w := by
        have h3 : (match key == k with
            | true => some x
            | false => List.lookup key tl) = some w := h
        rw [hbk] at h3
        exact h3
      show List.lookup key ((if k = key then (k, v) else (k, x)) :: _) = some v
      rw [if_neg hk]
      have h4 : (match key == k with
          | true => some x
          | false => List.lookup key
              (List.map (fun kw =>
                match kw with
                | (k2, w2) => if k2 = key then (k2, v) else (k2, w2)) tl)) = some v → 
          List.lookup key ((k, x) ::
            List.map (fun kw =>
              match kw with
              | (k2, w2) => if k2 = key then (k2, v) else (k2, w2)) tl) = some v :=
        fun hx => hx
      apply h4
      rw [hbk]
      exact ih h2

/-- Updating one key through setField leaves every other lookup unchanged. -/
theorem jsField_setField_other (fields : List (String × Json)) (key key2 : String)
    (v : Json) (hne : key2 ≠ key) :
    jsField (setField (Json.obj fields) key v) key2 = jsField (Json.obj fields) key2 := by
  induction fields with
  | nil => rfl
  | cons hd tl ih =>
    obtain ⟨k, x⟩ := hd
    by_cases hk : k = key
    · subst hk
      have hbk : (key2 == k) = false := beq_eq_false_iff_ne.mpr hne
      show List.lookup key2 ((if k = k then (k, v) else (k, x)) :: _)
        = List.lookup key2 ((k, x) :: tl)
      rw [if_pos rfl]
      show (match key2 == k with
        | true => some v
        | false => List.lookup key2
            (List.map (fun kw =>
              match kw with
              | (k2, w2) => if k2 = k then (k2, v) else (k2, w2)) tl))
        = (match key2 == k with
          | true => some x
          | false => List.lookup key2 tl)
      rw [hbk]
      exact ih
    · show List.lookup key2 ((if k = key then (k, v) else (k, x)) :: _)
        = List.lookup key2 ((k, x) :: tl)
      rw [if_neg hk]
      show (match key2 == k with
        | true => some x
        | false => List.lookup key2
            (List.map (fun kw =>
              match kw with
              | (k2, w2) => if k2 = key then (k2, v) else (k2, w2)) tl))
        = (match key2 == k with
          | true => some x
          | false => List.lookup key2 tl)
      cases hbk : (key2 == k) with
      | true => rfl
      | false => exact ih

/-- C9 counterexample: the response text null parses successfully and the
key and length guards pass, yet checkNegotiationProgress returns the
default record, not the parsed result unchanged: reading shouldCancel of
null throws and the catch substitutes the default. -/
theorem C9_counterexample :
    ("key" : String) ≠ "" ∧ 6 ≤ sampleSixMessages.length ∧
    (checkNegotiationProgress "key" sampleSixMessages sampleAnalysis
        (ServiceOutcome.resolved (ResponseText.json Json.null))).result = defaultProgress ∧
    defaultProgress ≠ Json.null := by
  refine ⟨by decide, by decide, rfl, ?_⟩
  intro h
  simp [defaultProgress] at h

/-- C9 amended: on a successful parse, a parsed null is the one exception
(reading its shouldCancel property throws and the caught error yields the
default record); any other parsed result with both shouldCancel and
reason truthy is returned with the fixed marker prepended to the
displayed reason — in particular, for shouldCancel true and a non-empty
string reason, the reason becomes the marker followed by that reason and
every other field is unchanged; every remaining parsed result is returned
entirely unchanged. -/
theorem C9_cancel_reason_formatting (apiKey : String) (messages : List ChatMessage)
    (analysis : AnalysisResult) (v : Json)
    (hk : apiKey ≠ "") (hlen : 6 ≤ messages.length) :
    (v = Json.null →
      (checkNegotiationProgress apiKey messages analysis
          (ServiceOutcome.resolved (ResponseText.json v))).result = defaultProgress) ∧
    (v ≠ Json.null →
      ((jsTruthy (jsField v "shouldCancel") = true → jsTruthy (jsField v "reason") = true →
        (checkNegotiationProgress apiKey messages analysis
            (ServiceOutcome.resolved (ResponseText.json v))).result
          = setField v "reason"
              (Json.str (cancelMarker ++ jsDisplay ((jsField v "reason").getD Json.null)))) ∧
       ((jsTruthy (jsField v "shouldCancel") = false ∨ jsTruthy (jsField v "reason") = false) →
        (checkNegotiationProgress apiKey messages analysis
            (ServiceOutcome.resolved (ResponseText.json v))).result = v))) ∧
    (∀ fields r, v = Json.obj fields →
      jsField v "shouldCancel" = some (Json.bool true) →
      jsField v "reason" = some (Json.str r) → r ≠ "" →
      ((checkNegotiationProgress apiKey messages analysis
          (ServiceOutcome.resolved (ResponseText.json v))).result
        = setField v "reason" (Json.str (cancelMarker ++ r)) ∧
       jsField (checkNegotiationProgress apiKey messages analysis
          (ServiceOutcome.resolved (ResponseText.json v))).result "reason"
        = some (Json.str (cancelMarker ++ r)) ∧
       ∀ key, key ≠ "reason" →
         jsField (checkNegotiationProgress apiKey messages analysis
            (ServiceOutcome.resolved (ResponseText.json v))).result key
           = jsField v key)) := by
  have hlen2 : ¬ messages.length < 6 := Nat.not_lt.mpr hlen
  have hres : ∀ w : Json,
      (checkNegotiationProgress apiKey messages analysis
          (ServiceOutcome.resolved (ResponseText.json w))).result
        = match formatCancelReason w with
          | Except.ok r2 => r2
          | Except.error _ => defaultProgress := by
    intro w
    unfold checkNegotiationProgress
    rcases hfc : formatCancelReason w with e | r2 <;> simp [hk, hlen2, hfc]
  refine ⟨?_, ?_, ?_⟩
  · rintro rfl
    rw [hres]
    rfl
  · intro hnn
    constructor
    · intro hsc hr
      rw [hres]
      have hfmt : formatCancelReason v
          = Except.ok (setField v "reason"
              (Json.str (cancelMarker ++ jsDisplay ((jsField v "reason").getD Json.null)))) := by
        cases v with
        | null => exact absurd rfl hnn
        | bool b => simp [jsField, jsTruthy] at hsc
        | num n => simp [jsField, jsTruthy] at hsc
        | str t => simp [jsField, jsTruthy] at hsc
        | arr xs => simp [jsField, jsTruthy] at hsc
        | obj fields => simp [formatCancelReason, hsc, hr]
      rw [hfmt]
    · intro hor
      rw [hres]
      have hfmt : formatCancelReason v = Except.ok v := by
        cases v with
        | null => exact absurd rfl hnn
        | bool b => simp [formatCancelReason, jsField, jsTruthy]
        | num n => simp [formatCancelReason, jsField, jsTruthy]
        | str t => simp [formatCancelReason, jsField, jsTruthy]
        | arr xs => simp [formatCancelReason, jsField, jsTruthy]
        | obj fields =>
          rcases hor with hsc | hr
          · simp [formatCancelReason, hsc]
          · simp [formatCancelReason, hr]
      rw [hfmt]
  · intro fields r hveq hsc hr hrne
    subst hveq
    have hfmt : formatCancelReason (Json.obj fields)
        = Except.ok (setField (Json.obj fields) "reason"
            (Json.str (cancelMarker ++ r))) := by
      simp [formatCancelReason, hsc, hr, jsTruthy, hrne, jsDisplay]
    have hres2 : (checkNegotiationProgress apiKey messages analysis
        (ServiceOutcome.resolved (ResponseText.json (Json.obj fields)))).result
        = setField (Json.obj fields) "reason" (Json.str (cancelMarker ++ r)) := by
      rw [hres, hfmt]
    refine ⟨hres2, ?_, ?_⟩
    · rw [hres2]
      exact jsField_setField_self fields "reason" _ hr
    · intro key hkey
      rw [hres2]
      exact jsField_setField_other fields "reason" key _ hkey

/-- Witness for the amended C9 at a concrete cancelling result. -/
theorem C9_cancel_reason_formatting_witness :
    ("key" : String) ≠ "" ∧ 6 ≤ sampleSixMessages.length ∧
    (checkNegotiationProgress "key" sampleSixMessages sampleAnalysis
        (ServiceOutcome.resolved (ResponseText.json (Json.obj cancelFields)))).result
      = setField (Json.obj cancelFields) "reason"
          (Json.str (cancelMarker ++ "Misaligned expectations.")) :=
  ⟨by decide, by decide,
   ((C9_cancel_reason_formatting "key" sampleSixMessages sampleAnalysis
       (Json.obj cancelFields) (by decide) (by decide)).2.2 cancelFields
       "Misaligned expectations." rfl rfl rfl (by decide)).1⟩

/-- C10: the prompt built by performDueDiligence depends on the pitch
text only through its first 1000 characters: two pitch texts agreeing
there yield the identical call. -/
theorem C10_pitch_truncation (apiKey : String) (analysis : AnalysisResult)
    (outcome : ServiceOutcome) (p1 p2 : String)
    (h : p1.take 1000 = p2.take 1000) :
    performDueDiligence apiKey p1 analysis outcome =
      performDueDiligence apiKey p2 analysis outcome := by
  unfold performDueDiligence dueDiligencePrompt
  rw [h]

/-- The two long pitches agree on their first 1000 characters. -/
theorem longPitch_take_eq : longPitchA.take 1000 = longPitchB.take 1000 := by
  rw [String.take_eq, String.take_eq]
  simp only [longPitchA, longPitchB, String.data_append]
  rw [List.take_left' (List.length_replicate 1000 'a'),
    List.take_left' (List.length_replicate 1000 'a')]

/-- Witness for C10: two 1008-character pitches differing only after
character 1000 yield the identical call. -/
theorem C10_pitch_truncation_witness :
    longPitchA.take 1000 = longPitchB.take 1000 ∧
    performDueDiligence "key" longPitchA sampleAnalysis ServiceOutcome.reject =
      performDueDiligence "key" longPitchB sampleAnalysis ServiceOutcome.reject :=
  ⟨longPitch_take_eq,
   C10_pitch_truncation "key" sampleAnalysis ServiceOutcome.reject
     longPitchA longPitchB longPitch_take_eq⟩

end FounderAI

